import Mathlib

/-!
Shallow embedding of the discovery-and-normalization core of the
`hw-checker` repository (`src/discovery.rs`, `src/tui.rs`, `src/model.rs`).

Rust strings are modelled as lists of characters (`Str`); all file-system,
firmware and bus reads are modelled as explicit inputs: an `Option` input
whose `none` stands for a failed/unavailable read, a list input for an
enumeration.  Machine integers (`u8`, `u16`, `u64`) are modelled as `Nat`
with explicit range checks exactly where the Rust code performs a fallible
parse; the `f32` CPU-usage sample is only ever copied, never computed with,
so it is modelled as an abstract numeric sample (`Nat`).
-/

namespace HwChecker

/-- Rust `String` / `&str`, modelled as a list of characters. -/
abbrev Str := List Char

/-- ASCII whitespace, as used by Rust `str::trim` on the ASCII inputs the
program reads (`pci.ids`, sysfs attribute files). -/
def isWs (c : Char) : Bool :=
  c = ' ' || c = '\t' || c = '\n' || c = '\r'

/-- Rust `str::trim_start`. -/
def trimLeft (s : Str) : Str := s.dropWhile isWs

/-- Rust `str::trim_end`. -/
def trimRight (s : Str) : Str := (s.reverse.dropWhile isWs).reverse

/-- Rust `str::trim`. -/
def trim (s : Str) : Str := trimRight (trimLeft s)

/-- Rust `str::starts_with`. -/
def startsWith : Str → Str → Bool
  | [], _ => true
  | _ :: _, [] => false
  | p :: ps, c :: cs => p = c && startsWith ps cs

/-- Rust `str::contains(char)`. -/
def containsChar (c : Char) (s : Str) : Bool := s.any (fun x => x = c)

/-- Rust `str::contains(&str)`: substring containment. -/
def containsSeq (needle : Str) : Str → Bool
  | [] => needle.isEmpty
  | c :: t => startsWith needle (c :: t) || containsSeq needle t

/-- Rust `str::to_lowercase` (ASCII fragment). -/
def toLowerStr (s : Str) : Str := s.map Char.toLower

/-- Rust `str::to_uppercase` (ASCII fragment). -/
def toUpperStr (s : Str) : Str := s.map Char.toUpper

/-- Value of one hexadecimal digit, as accepted by `u16::from_str_radix(_, 16)`. -/
def hexDigitVal (c : Char) : Option Nat :=
  if c.isDigit then some (c.toNat - 48)
  else if 'a' ≤ c && c ≤ 'f' then some (c.toNat - 87)
  else if 'A' ≤ c && c ≤ 'F' then some (c.toNat - 55)
  else none

/-- Fold a digit onto an accumulator, propagating a digit failure. -/
def hexAccum (acc : Option Nat) (c : Char) : Option Nat :=
  acc.bind (fun n => (hexDigitVal c).map (fun d => n * 16 + d))

/-- Rust `u16::from_str_radix(s, 16)`: an optional leading `+`, then at
least one hexadecimal digit; a `-` sign or any other character is rejected,
and a value not fitting in `u16` is an overflow error. -/
def fromStrRadix16 (s : Str) : Option Nat :=
  let body := match s with
    | '+' :: rest => rest
    | _ => s
  if body.isEmpty then none
  else
    (body.foldl hexAccum (some 0)).bind
      (fun n => if n < 65536 then some n else none)

/-- Value of one decimal digit. -/
def decDigitVal (c : Char) : Option Nat :=
  if c.isDigit then some (c.toNat - 48) else none

/-- Fold a decimal digit onto an accumulator, propagating failure. -/
def decAccum (acc : Option Nat) (c : Char) : Option Nat :=
  acc.bind (fun n => (decDigitVal c).map (fun d => n * 10 + d))

/-- Rust `str::parse::<uN>()` for an unsigned type with exclusive upper
bound `bound`: an optional leading `+`, then at least one decimal digit;
values `≥ bound` are an overflow error. -/
def parseUnsigned (bound : Nat) (s : Str) : Option Nat :=
  let body := match s with
    | '+' :: rest => rest
    | _ => s
  if body.isEmpty then none
  else
    (body.foldl decAccum (some 0)).bind
      (fun n => if n < bound then some n else none)

/-- Rust `str::parse::<u8>()`. -/
def parseU8 (s : Str) : Option Nat := parseUnsigned 256 s

/-- Rust `str::parse::<u16>()`. -/
def parseU16 (s : Str) : Option Nat := parseUnsigned 65536 s

/-- Rust `str::splitn(2, ' ')`: the part before the first space, and — when
a space exists — everything after it. -/
def splitn2 : Str → Str × Option Str
  | [] => ([], none)
  | c :: t =>
    if c = ' ' then ([], some t)
    else
      let r := splitn2 t
      (c :: r.1, r.2)

/-! ## Vendor/Device Database (`load_pci_db`, discovery.rs lines 340-394) -/

/-- Value stored in the PCI ID database: optional vendor name, optional
device name. -/
abbrev PciName := Option Str × Option Str

/-- The in-memory PCI ID database.  The Rust code uses a
`HashMap<(u16, u16), (Option<String>, Option<String>)>`; it is modelled by
an association list whose `dbInsert` prepends and whose `dbGet` takes the
most recent binding, which is observably the same insert-overwrites
semantics. -/
abbrev PciDb := List ((Nat × Nat) × PciName)

/-- `HashMap::insert` (overwriting). -/
def dbInsert (k : Nat × Nat) (v : PciName) (db : PciDb) : PciDb := (k, v) :: db

/-- `HashMap::get`. -/
def dbGet (db : PciDb) (k : Nat × Nat) : Option PciName :=
  (db.find? (fun e => e.1 == k)).map (fun e => e.2)

/-- Parser state of `load_pci_db`: the current vendor (id and name) and the
database built so far. -/
structure LoadState where
  currentVendorId : Option Nat
  currentVendorName : Option Str
  db : PciDb
deriving DecidableEq

/-- The device-record branch of `load_pci_db` (discovery.rs lines 359-376):
runs when the line has a single leading tab. -/
def procDevice (st : LoadState) (line : Str) : LoadState :=
  match st.currentVendorId with
  | none => st
  | some vId =>
    let content := trim line
    let parts := splitn2 content
    match fromStrRadix16 parts.1 with
    | none => st
    | some dId =>
      match parts.2 with
      | none => st
      | some name =>
        { st with db := dbInsert (vId, dId) (st.currentVendorName, some (trim name)) st.db }

/-- The vendor-record branch of `load_pci_db` (discovery.rs lines 377-388):
runs when the line has no leading tab. -/
def procVendor (st : LoadState) (line : Str) : LoadState :=
  let parts := splitn2 line
  match fromStrRadix16 parts.1 with
  | none => st
  | some vId =>
    match parts.2 with
    | none => st
    | some name =>
      let vn := some (trim name)
      { currentVendorId := some vId
        currentVendorName := vn
        db := dbInsert (vId, 65535) (vn, none) st.db }

/-- One iteration of the line loop of `load_pci_db` (discovery.rs lines
350-389), translated clause by clause from the source. -/
def procLine (st : LoadState) (line : Str) : LoadState :=
  if (trim line).isEmpty || startsWith ['#'] line || startsWith ['C'] line then st
  else if startsWith ['\t', '\t'] line then st
  else if startsWith ['\t'] line then procDevice st line
  else procVendor st line

/-- The body of `load_pci_db` applied to the lines of one opened file. -/
def loadPciDbLines (lines : List Str) : PciDb :=
  (lines.foldl procLine { currentVendorId := none, currentVendorName := none, db := [] }).db

/-- `load_pci_db`: the candidate paths are modelled as a list of optional
line lists (`none` = the path does not open); the first path that opens is
parsed and the loop breaks; if none opens the database is empty. -/
def load_pci_db (files : List (Option (List Str))) : PciDb :=
  match files.findSome? id with
  | some lines => loadPciDbLines lines
  | none => []

/-! ## PCI probe (`get_pci_devices`, discovery.rs lines 305-338) -/

/-- One successfully enumerated PCI function (a `function_res` that was
`Ok`): its Debug-rendered location and its numeric ids. -/
structure PciFunctionSample where
  slot : Str
  vendorId : Nat
  deviceId : Nat
deriving DecidableEq

/-- `model.rs::PciDevice`. -/
structure PciDevice where
  slot : Str
  vendor_id : Nat
  device_id : Nat
  vendor_name : Option Str
  device_name : Option Str
  class_name : Option Str
deriving DecidableEq

/-- The name-resolution expression of `get_pci_devices` (discovery.rs lines
315-324): exact `(vendor, device)` lookup, else `(vendor, 0xFFFF)` keeping
only the vendor component, else both `None`. -/
def pciLookup (db : PciDb) (v d : Nat) : PciName :=
  match dbGet db (v, d) with
  | some p => p
  | none =>
    match dbGet db (v, 65535) with
    | some q => (q.1, none)
    | none => (none, none)

/-- `get_pci_devices`; enumeration failure or per-function errors are
modelled by the absent entries of `functions`. -/
def get_pci_devices (files : List (Option (List Str))) (functions : List PciFunctionSample) :
    List PciDevice :=
  let db := load_pci_db files
  functions.map (fun f =>
    let n := pciLookup db f.vendorId f.deviceId
    { slot := f.slot, vendor_id := f.vendorId, device_id := f.deviceId,
      vendor_name := n.1, device_name := n.2, class_name := none })

/-! ## Memory probe (`get_ram_details`, discovery.rs lines 152-205) -/

/-- `model.rs::RamStick`. -/
structure RamStick where
  manufacturer : Option Str
  part_number : Option Str
  serial_number : Option Str
  speed : Option Nat
deriving DecidableEq

/-- One SMBIOS structure as read by the probe: its structure type and the
Display/Debug renderings of the fields `get_ram_details` extracts. -/
structure SmbiosRec where
  structType : Nat
  manufacturerRaw : Str
  partNumberRaw : Str
  serialNumberRaw : Str
  speedRaw : Option Str
deriving DecidableEq

/-- The `clean` closure of `get_ram_details` (discovery.rs lines 177-190). -/
def cleanField (s : Str) : Option Str :=
  let t := trim s
  if t.isEmpty
      || toLowerStr t == ("unknown".toList)
      || toLowerStr t == ("none".toList)
      || toLowerStr t == ("not specified".toList)
      || containsSeq ("empty".toList) (toLowerStr t)
      || t == ("0".toList)
  then none else some t

/-- `map_ram_manufacturer` (discovery.rs lines 207-228). -/
def map_ram_manufacturer (id : Str) : Str :=
  let u := toUpperStr id
  if containsSeq ("0198".toList) u then "Kingston".toList
  else if containsSeq ("04CB".toList) u then "ADATA".toList
  else if containsSeq ("00AD".toList) u || containsSeq ("80AD".toList) u then "SK Hynix".toList
  else if containsSeq ("00CE".toList) u || containsSeq ("80CE".toList) u then "Samsung".toList
  else if containsSeq ("012F".toList) u || containsSeq ("812F".toList) u then "Micron".toList
  else if containsSeq ("029E".toList) u || containsSeq ("829E".toList) u then "Corsair".toList
  else if containsSeq ("0423".toList) u || containsSeq ("8423".toList) u then "Crucial".toList
  else if containsSeq ("059B".toList) u || containsSeq ("859B".toList) u then "Crucial".toList
  else id

/-- The speed closure of `get_ram_details` (discovery.rs lines 167-175):
keep the decimal digits of the Debug rendering, parse as `u16`, default 0. -/
def speedParse (s : Str) : Nat := (parseU16 (s.filter Char.isDigit)).getD 0

/-- The stick speed field (discovery.rs line 197): a parsed value of 0 maps
to `None`. -/
def stickSpeed (raw : Option Str) : Option Nat :=
  (raw.map speedParse).bind (fun s => if 0 < s then some s else none)

/-- The per-record body of the `get_ram_details` loop. -/
def stickOfRec (r : SmbiosRec) : Option RamStick :=
  if r.structType = 17 then
    match cleanField r.manufacturerRaw with
    | some m =>
      some { manufacturer := some (map_ram_manufacturer m)
             part_number := cleanField r.partNumberRaw
             serial_number := cleanField r.serialNumberRaw
             speed := stickSpeed r.speedRaw }
    | none => none
  else none

/-- `get_ram_details`: the firmware table is an explicit input; `none`
models a platform or privilege level where `table_load_from_device` fails
(the probe then returns no sticks). -/
def get_ram_details (table : Option (List SmbiosRec)) : List RamStick :=
  match table with
  | none => []
  | some recs => recs.filterMap stickOfRec

/-! ## Storage probe (`get_disk_metadata`, discovery.rs lines 230-273) -/

/-- Rust `name.trim_end_matches(char::is_numeric)` on ASCII device names:
strip all trailing decimal digits. -/
def dropTrailingNumeric (s : Str) : Str := (s.reverse.dropWhile Char.isDigit).reverse

/-- Rust `name[..pos]` with `pos = name.rfind('p')`: everything before the
last occurrence of `c`, or the string unchanged when `c` does not occur. -/
def truncAtLast (c : Char) (s : Str) : Str :=
  match s.reverse.dropWhile (fun x => x != c) with
  | [] => s
  | _ :: rest => rest.reverse

/-- The parent-device derivation of `get_disk_metadata` (discovery.rs lines
240-247). -/
def parentDiskName (name : Str) : Str :=
  if startsWith ("sd".toList) name || startsWith ("hd".toList) name then
    dropTrailingNumeric name
  else if containsChar 'p' name && startsWith ("nvme".toList) name then
    truncAtLast 'p' name
  else name

/-- The interface inference of `get_disk_metadata` (discovery.rs lines
259-265). -/
def diskInterfaceOf (parent : Str) : Option Str :=
  if startsWith ("nvme".toList) parent then some ("NVMe".toList)
  else if startsWith ("sd".toList) parent then some ("SATA/SAS".toList)
  else none

/-- The readable sysfs attribute files, keyed by (parent device name,
attribute file name), holding the raw file contents. -/
abbrev SysfsAttrs := List ((Str × Str) × Str)

/-- One `fs::read_to_string("/sys/block/{parent}/device/{attr}").ok().map(trim)`. -/
def sysRead (attrs : SysfsAttrs) (parent attr : Str) : Option Str :=
  (attrs.find? (fun e => e.1 == (parent, attr))).map (fun e => trim e.2)

/-- `get_disk_metadata`; the first argument is `none` on a platform without
the sysfs tree (the non-Linux branch returns four `None`s). -/
def get_disk_metadata (linuxAttrs : Option SysfsAttrs) (name : Str) :
    Option Str × Option Str × Option Str × Option Str :=
  match linuxAttrs with
  | none => (none, none, none, none)
  | some attrs =>
    let parent := parentDiskName name
    let model := sysRead attrs parent ("model".toList)
    let sn := sysRead attrs parent ("serial".toList)
    let vendor := sysRead attrs parent ("vendor".toList)
    (vendor, model, sn, diskInterfaceOf parent)

/-! ## Battery probe (`get_battery_info`, discovery.rs lines 419-444) -/

/-- One entry of `/sys/class/power_supply/`: its name and the contents of
its `status` and `capacity` files (`none` = unreadable). -/
structure PowerSupplyEntry where
  name : Str
  statusFile : Option Str
  capacityFile : Option Str
deriving DecidableEq

/-- `model.rs::BatteryInfo`. -/
structure BatteryInfo where
  name : Str
  status : Str
  capacity : Nat
deriving DecidableEq

/-- The per-entry body of the `get_battery_info` loop. -/
def batteryOfEntry (e : PowerSupplyEntry) : Option BatteryInfo :=
  if startsWith ("BAT".toList) e.name then
    some { name := e.name
           status := (e.statusFile.map trim).getD ("Unknown".toList)
           capacity := (e.capacityFile.map (fun s => (parseU8 (trim s)).getD 0)).getD 0 }
  else none

/-- `get_battery_info`; `none` models a platform without the power-supply
directory or a failed `read_dir` (both yield no batteries). -/
def get_battery_info (entries : Option (List PowerSupplyEntry)) : List BatteryInfo :=
  match entries with
  | none => []
  | some es => es.filterMap batteryOfEntry

/-! ## Motherboard probe (`get_motherboard_info`, discovery.rs lines 396-417) -/

/-- The five DMI attribute reads; each field is `none` when the read fails. -/
structure DmiDir where
  board_vendor : Option Str
  board_name : Option Str
  bios_vendor : Option Str
  bios_version : Option Str
  bios_date : Option Str
deriving DecidableEq

/-- `model.rs::MotherboardInfo`. -/
structure MotherboardInfo where
  vendor : Str
  product : Str
  bios_vendor : Str
  bios_version : Str
  bios_date : Str
deriving DecidableEq

/-- The `read_sys` closure: trim on success, literal `Unknown` on failure. -/
def readSys (v : Option Str) : Str := (v.map trim).getD ("Unknown".toList)

/-- `get_motherboard_info`; the argument is `none` on a platform without the
firmware-description tree (the non-Linux branch returns `None`). -/
def get_motherboard_info (dmi : Option DmiDir) : Option MotherboardInfo :=
  dmi.map (fun d =>
    { vendor := readSys d.board_vendor
      product := readSys d.board_name
      bios_vendor := readSys d.bios_vendor
      bios_version := readSys d.bios_version
      bios_date := readSys d.bios_date })

/-! ## USB probe (`get_usb_devices`, discovery.rs lines 275-303) -/

/-- One USB device whose descriptor read succeeded; `openStrings` is `none`
when `device.open()` fails (then both strings are `None`). -/
structure UsbSample where
  bus : Nat
  address : Nat
  vendorId : Nat
  productId : Nat
  openStrings : Option (Option Str × Option Str)
deriving DecidableEq

/-- `model.rs::UsbDevice`. -/
structure UsbDevice where
  bus : Nat
  address : Nat
  vendor_id : Nat
  product_id : Nat
  manufacturer : Option Str
  product : Option Str
deriving DecidableEq

/-- `get_usb_devices`; `none` models a failed `rusb::Context::new()` or
device listing (no devices). -/
def get_usb_devices (ctx : Option (List UsbSample)) : List UsbDevice :=
  match ctx with
  | none => []
  | some l =>
    l.map (fun d =>
      let ms := d.openStrings.getD (none, none)
      { bus := d.bus, address := d.address, vendor_id := d.vendorId,
        product_id := d.productId, manufacturer := ms.1, product := ms.2 })

/-! ## CPU probe (`get_cpu_caches` and the cpu loop of `get_hardware_report`) -/

/-- One logical CPU as sampled by sysinfo. The `f32` usage is modelled as an
abstract sample value: the program only copies it. -/
structure CpuSample where
  brand : Str
  vendorIdStr : Str
  frequency : Nat
  usage : Nat
deriving DecidableEq

/-- One entry of `cpuid.get_cache_parameters()`. -/
structure CacheParam where
  level : Nat
  ways : Nat
  physicalLinePartitions : Nat
  coherencyLineSize : Nat
  sets : Nat
deriving DecidableEq

/-- `model.rs::CpuInfo`. -/
structure CpuInfo where
  model : Str
  vendor_id : Str
  brand : Str
  cores : Nat
  frequency : Nat
  usage : Nat
  l1_cache : Option Str
  l2_cache : Option Str
  l3_cache : Option Str
deriving DecidableEq

/-- Decimal rendering of a `Nat`, for the `format!("{} KB", size_kb)` label. -/
def natStr (n : Nat) : Str := Nat.toDigits 10 n

/-- `get_cpu_caches` (discovery.rs lines 114-150); `none` models
`get_cache_parameters()` returning nothing. -/
def get_cpu_caches (params : Option (List CacheParam)) :
    Option Str × Option Str × Option Str :=
  match params with
  | none => (none, none, none)
  | some ps =>
    ps.foldl (fun (acc : Option Str × Option Str × Option Str) c =>
      let sizeKb := c.ways * c.physicalLinePartitions * c.coherencyLineSize * c.sets / 1024
      let label := natStr sizeKb ++ (" KB".toList)
      match c.level with
      | 1 => (some label, acc.2.1, acc.2.2)
      | 2 => (acc.1, some label, acc.2.2)
      | 3 => (acc.1, acc.2.1, some label)
      | _ => acc) (none, none, none)

/-! ## Report assembly (`get_hardware_report`, discovery.rs lines 13-112) -/

/-- Memory and swap counters sampled from sysinfo. -/
structure MemCounters where
  total : Nat
  used : Nat
  free : Nat
  swapTotal : Nat
  swapUsed : Nat
deriving DecidableEq

/-- One mounted volume as listed by `Disks::new_with_refreshed_list`. -/
structure DiskSample where
  name : Str
  mountPoint : Str
  totalSpace : Nat
  availableSpace : Nat
  fileSystem : Str
  kindStr : Str
deriving DecidableEq

/-- One interface of `Networks::new_with_refreshed_list`. -/
structure NetData where
  received : Nat
  transmitted : Nat
  macAddress : Str
deriving DecidableEq

/-- `model.rs::StorageInfo` (as constructed by discovery.rs lines 65-77). -/
structure StorageInfo where
  name : Str
  mount_point : Str
  total : Nat
  used : Nat
  free : Nat
  filesystem : Str
  vendor : Option Str
  model_name : Option Str
  serial_number : Option Str
  disk_type : Option Str
  interface : Option Str
deriving DecidableEq

/-- `model.rs::NetworkInfo`. -/
structure NetworkInfo where
  name : Str
  received : Nat
  transmitted : Nat
  mac_address : Str
deriving DecidableEq

/-- `model.rs::RamInfo`. -/
structure RamInfo where
  total : Nat
  used : Nat
  free : Nat
  swap_total : Nat
  swap_used : Nat
  sticks : List RamStick
deriving DecidableEq

/-- `model.rs::HardwareReport`. -/
structure HardwareReport where
  os_name : Str
  os_version : Str
  kernel_version : Str
  hostname : Str
  uptime : Nat
  cpu : List CpuInfo
  ram : RamInfo
  storage : List StorageInfo
  network : List NetworkInfo
  usb : List UsbDevice
  pci : List PciDevice
  motherboard : Option MotherboardInfo
  battery : List BatteryInfo
deriving DecidableEq

/-- Everything the discovery pass reads from the machine, as one explicit
environment.  `Option` inputs are `none` exactly where the corresponding
Rust read can fail or is platform-gated. -/
structure Env where
  cpus : List CpuSample
  cpuVendorInfo : Option Str
  physicalCoreCount : Option Nat
  cacheParams : Option (List CacheParam)
  mem : MemCounters
  smbios : Option (List SmbiosRec)
  disks : List DiskSample
  diskSysfs : Option SysfsAttrs
  networks : List (Str × NetData)
  usb : Option (List UsbSample)
  pciFiles : List (Option (List Str))
  pciFunctions : List PciFunctionSample
  dmi : Option DmiDir
  powerSupply : Option (List PowerSupplyEntry)
  osName : Option Str
  osVersion : Option Str
  kernelVersion : Option Str
  hostName : Option Str
  uptime : Nat
deriving DecidableEq

/-- `get_hardware_report` (discovery.rs lines 13-112), translated probe by
probe; every system read comes from the explicit environment. -/
def get_hardware_report (env : Env) : HardwareReport :=
  let caches := get_cpu_caches env.cacheParams
  let vendorName := env.cpuVendorInfo.getD ("Unknown".toList)
  let cpuInfo := env.cpus.map (fun c =>
    { model := c.brand, vendor_id := c.vendorIdStr, brand := vendorName,
      cores := env.physicalCoreCount.getD 0, frequency := c.frequency, usage := c.usage,
      l1_cache := caches.1, l2_cache := caches.2.1, l3_cache := caches.2.2 : CpuInfo })
  let ramInfo : RamInfo :=
    { total := env.mem.total, used := env.mem.used, free := env.mem.free,
      swap_total := env.mem.swapTotal, swap_used := env.mem.swapUsed,
      sticks := get_ram_details env.smbios }
  let storageInfo := env.disks.map (fun d =>
    let meta := get_disk_metadata env.diskSysfs d.name
    { name := d.name, mount_point := d.mountPoint, total := d.totalSpace,
      used := d.totalSpace - d.availableSpace, free := d.availableSpace,
      filesystem := d.fileSystem, vendor := meta.1, model_name := meta.2.1,
      serial_number := meta.2.2.1, disk_type := some d.kindStr,
      interface := meta.2.2.2 : StorageInfo })
  let networkInfo := env.networks.map (fun p =>
    { name := p.1, received := p.2.received, transmitted := p.2.transmitted,
      mac_address := p.2.macAddress : NetworkInfo })
  { os_name := env.osName.getD []
    os_version := env.osVersion.getD []
    kernel_version := env.kernelVersion.getD []
    hostname := env.hostName.getD []
    uptime := env.uptime
    cpu := cpuInfo
    ram := ramInfo
    storage := storageInfo
    network := networkInfo
    usb := get_usb_devices env.usb
    pci := get_pci_devices env.pciFiles env.pciFunctions
    motherboard := get_motherboard_info env.dmi
    battery := get_battery_info env.powerSupply }

/-! ## Live session refresh (`App::update_metrics`, tui.rs lines 53-83) -/

/-- The freshly refreshed sample the loop reads from `self.sys` and
`self.networks`: per-core (usage, frequency) in enumeration order, memory
counters, uptime, and per-interface cumulative counters. -/
structure RefreshSample where
  cpus : List (Nat × Nat)
  usedMemory : Nat
  freeMemory : Nat
  usedSwap : Nat
  uptime : Nat
  networks : List (Str × Nat × Nat)
deriving DecidableEq

/-- The cpu loop of `update_metrics` (tui.rs lines 59-64): the sample is
enumerated and matched by index via `get_mut(i)`; report entries beyond the
sample keep their values, sample entries beyond the report are dropped. -/
def updateCpus : List CpuInfo → List (Nat × Nat) → List CpuInfo
  | cs, [] => cs
  | [], _ :: _ => []
  | c :: cs, s :: ss => { c with usage := s.1, frequency := s.2 } :: updateCpus cs ss

/-- The network loop body of `update_metrics` (tui.rs lines 75-80): find the
refreshed interface by name; if absent the entry is left unchanged. -/
def updateNet (sample : List (Str × Nat × Nat)) (net : NetworkInfo) : NetworkInfo :=
  match sample.find? (fun p => p.1 == net.name) with
  | some p => { net with received := p.2.1, transmitted := p.2.2 }
  | none => net

/-- `App::update_metrics` as a transformer of the working copy. -/
def update_metrics (report : HardwareReport) (s : RefreshSample) : HardwareReport :=
  { report with
    cpu := updateCpus report.cpu s.cpus
    ram := { report.ram with used := s.usedMemory, free := s.freeMemory, swap_used := s.usedSwap }
    uptime := s.uptime
    network := report.network.map (updateNet s.networks) }

/-! ## Specification-side definitions

These definitions follow the wording of the specification (not the source)
and exist only to be compared with the source-derived definitions above. -/

/-- Number of leading tab characters of a line (the spec classifies lines
by their leading-tab count). -/
def leadingTabs (s : Str) : Nat := (s.takeWhile (fun c => c == '\t')).length

/-- The in-band sentinel device id used for vendor-only fallback entries. -/
def sentinelDevice : Nat := 65535

/-- Spec wording: a line with exactly one leading tab is a device record
under the current vendor, inserted under `(current_vendor_id, device_id)`
when its hex id and name parse. -/
def specDevice (st : LoadState) (line : Str) : LoadState :=
  match st.currentVendorId, splitn2 (trim line) with
  | some vId, (idStr, some name) =>
    match fromStrRadix16 idStr with
    | some dId =>
      { st with db := ((vId, dId), (st.currentVendorName, some (trim name))) :: st.db }
    | none => st
  | _, _ => st

/-- Spec wording: a line with no leading tab that parses as a hex id
followed by a name starts a new vendor record, is inserted under
`(vendor_id, sentinelDevice)` as a vendor-only fallback entry (device name
`none`), and becomes the current vendor. -/
def specVendor (st : LoadState) (line : Str) : LoadState :=
  match splitn2 line with
  | (idStr, some name) =>
    match fromStrRadix16 idStr with
    | some vId =>
      { currentVendorId := some vId
        currentVendorName := some (trim name)
        db := ((vId, sentinelDevice), (some (trim name), none)) :: st.db }
    | none => st
  | (_, none) => st

/-- Spec wording of the line classification: blank lines, `#` lines and `C`
lines are skipped; zero leading tabs is a vendor record; exactly one
leading tab is a device record; two or more leading tabs are ignored. -/
def specStep (st : LoadState) (line : Str) : LoadState :=
  if (trim line).isEmpty || startsWith ['#'] line || startsWith ['C'] line then st
  else
    match leadingTabs line with
    | 0 => specVendor st line
    | 1 => specDevice st line
    | _ => st

/-- The JEDEC-code table as worded by the spec: each entry lists the hex
code variants that map to one manufacturer name. -/
def jedecTable : List (List Str × Str) :=
  [ (["0198".toList], "Kingston".toList),
    (["04CB".toList], "ADATA".toList),
    (["00AD".toList, "80AD".toList], "SK Hynix".toList),
    (["00CE".toList, "80CE".toList], "Samsung".toList),
    (["012F".toList, "812F".toList], "Micron".toList),
    (["029E".toList, "829E".toList], "Corsair".toList),
    (["0423".toList, "8423".toList], "Crucial".toList),
    (["059B".toList, "859B".toList], "Crucial".toList) ]

/-- First table entry one of whose code variants occurs (case-insensitive,
substring) in the raw code. -/
def lookupJedec (id : Str) : List (List Str × Str) → Option Str
  | [] => none
  | e :: rest =>
    if e.1.any (fun code => containsSeq code (toUpperStr id)) then some e.2
    else lookupJedec id rest

/-- Spec wording of the manufacturer translation: table hit maps to the
name, unmatched codes pass through verbatim. -/
def specMapManufacturer (id : Str) : Str := (lookupJedec id jedecTable).getD id

/-! ## Helper lemmas -/

theorem dbGet_insert_self (k : Nat × Nat) (v : PciName) (db : PciDb) :
    dbGet (dbInsert k v db) k = some v := by
  simp [dbGet, dbInsert, List.find?_cons_of_pos]

/-! ## C2: PCI name-resolution lookup contract -/

/-- Claim C2: for every loaded PCI ID database and every enumerated PCI function,
name resolution returns the exact `(vendor, device)` entry when present; on
a miss it falls back to `(vendor, 0xFFFF)` and returns the stored vendor
name with `none` device name; when neither key is present both names are
`none`; and every device produced by `get_pci_devices` carries exactly the
names `pciLookup` resolves for its ids. -/
theorem pci_lookup_contract (db : PciDb) (v d : Nat) :
    (∀ p, dbGet db (v, d) = some p → pciLookup db v d = p) ∧
    (dbGet db (v, d) = none →
      ∀ q, dbGet db (v, 65535) = some q → pciLookup db v d = (q.1, none)) ∧
    (dbGet db (v, d) = none → dbGet db (v, 65535) = none →
      pciLookup db v d = (none, none)) ∧
    (∀ (files : List (Option (List Str))) (fns : List PciFunctionSample)
        (dev : PciDevice), dev ∈ get_pci_devices files fns →
      (dev.vendor_name, dev.device_name)
        = pciLookup (load_pci_db files) dev.vendor_id dev.device_id) := by
  refine ⟨?_, ?_, ?_, ?_⟩
  · intro p h
    simp [pciLookup, h]
  · intro h q hq
    simp [pciLookup, h, hq]
  · intro h h2
    simp [pciLookup, h, h2]
  · intro files fns dev hdev
    simp only [get_pci_devices, List.mem_map] at hdev
    obtain ⟨f, hf, rfl⟩ := hdev
    rfl

/-- Witness for C2 on a concrete loaded database: a known pair resolves to
its names, an unknown device under a known vendor resolves to the vendor
name only, and an unknown vendor resolves to no names. -/
theorem pci_lookup_contract_witness :
    pciLookup (loadPciDbLines [("1234 VendorX".toList), ('\t' :: ("0001  Dev A".toList))])
        4660 1 = (some ("VendorX".toList), some ("Dev A".toList)) ∧
    pciLookup (loadPciDbLines [("1234 VendorX".toList), ('\t' :: ("0001  Dev A".toList))])
        4660 2 = (some ("VendorX".toList), none) ∧
    pciLookup (loadPciDbLines [("1234 VendorX".toList), ('\t' :: ("0001  Dev A".toList))])
        39321 5 = (none, none) := by
  refine ⟨?_, ?_, ?_⟩
  · exact (pci_lookup_contract
      (loadPciDbLines [("1234 VendorX".toList), ('\t' :: ("0001  Dev A".toList))])
      4660 1).1 _ (by decide)
  · exact (pci_lookup_contract
      (loadPciDbLines [("1234 VendorX".toList), ('\t' :: ("0001  Dev A".toList))])
      4660 2).2.1 (by decide) (some ("VendorX".toList), none) (by decide)
  · exact (pci_lookup_contract
      (loadPciDbLines [("1234 VendorX".toList), ('\t' :: ("0001  Dev A".toList))])
      39321 5).2.2.1 (by decide) (by decide)

/-! ## C9: RAM manufacturer translation table -/

/-- Claim C9: the manufacturer mapping agrees everywhere with the table-driven
spec reading — any raw code containing one of the fixed JEDEC hex codes
(case-insensitive substring) maps to the corresponding name, with the
Crucial entry duplicated across two code variants, and every unmatched
code passes through verbatim. -/
theorem ram_manufacturer_table (id : Str) :
    map_ram_manufacturer id = specMapManufacturer id := by
  simp only [map_ram_manufacturer, specMapManufacturer, jedecTable, lookupJedec,
    List.any_cons, List.any_nil, Bool.or_false]
  split_ifs <;> rfl

/-! ## C5: PCI ID parser line classification -/

theorem procDevice_eq_specDevice (st : LoadState) (line : Str) :
    procDevice st line = specDevice st line := by
  unfold procDevice specDevice
  rcases hs : splitn2 (trim line) with ⟨idStr, rest⟩
  cases h : st.currentVendorId <;> cases rest <;>
    cases hr : fromStrRadix16 idStr <;> simp [hs, h, hr, dbInsert]

theorem procVendor_eq_specVendor (st : LoadState) (line : Str) :
    procVendor st line = specVendor st line := by
  unfold procVendor specVendor sentinelDevice
  rcases hs : splitn2 line with ⟨idStr, rest⟩
  cases rest <;> cases hr : fromStrRadix16 idStr <;> simp [hs, hr, dbInsert]

/-- Claim C5: the parser classifies every input line as the spec words it — blank
lines, `#` lines and class (`C`) lines are skipped; a line with no leading
tab that parses as a hex id followed by a name becomes the current vendor
and is inserted under `(vendor_id, 0xFFFF)` with `none` device name; a line
with exactly one leading tab is inserted under
`(current_vendor_id, device_id)`; two or more leading tabs are ignored. -/
theorem pci_line_classification (st : LoadState) (line : Str) :
    procLine st line = specStep st line := by
  unfold procLine specStep
  by_cases h0 : ((trim line).isEmpty || startsWith ['#'] line || startsWith ['C'] line) = true
  · simp [h0]
  · rw [Bool.not_eq_true] at h0
    rcases line with _ | ⟨c, rest⟩
    · simp [trim, trimLeft, trimRight] at h0
    by_cases hc : c = '\t'
    · subst hc
      rcases rest with _ | ⟨c2, rest2⟩
      · simp only [h0, Bool.false_eq_true, if_false]
        simp [startsWith, leadingTabs, List.takeWhile]
        exact procDevice_eq_specDevice st _
      by_cases hc2 : c2 = '\t'
      · subst hc2
        simp [h0, startsWith, leadingTabs, List.takeWhile]
      · have hb2 : (c2 == '\t') = false := by simp [hc2]
        simp only [h0, Bool.false_eq_true, if_false]
        simp [startsWith, leadingTabs, List.takeWhile, hb2, hc2, eq_comm]
        exact procDevice_eq_specDevice st _
    · have hb : (c == '\t') = false := by simp [hc]
      simp only [h0, Bool.false_eq_true, if_false]
      simp [startsWith, leadingTabs, List.takeWhile, hb, hc, eq_comm]
      exact procVendor_eq_specVendor st _

/-! ## C10: the in-band 0xFFFF sentinel -/

theorem length_dropWhile_le' {α} (p : α → Bool) (l : List α) :
    (l.dropWhile p).length ≤ l.length := by
  induction l with
  | nil => simp
  | cons y ys ih =>
    by_cases hy : p y
    · rw [List.dropWhile_cons_of_pos hy]
      exact le_trans ih (Nat.le_succ _)
    · rw [List.dropWhile_cons_of_neg hy]

/-- If `dropWhile` keeps a nonempty list intact, it also keeps any
extension of it intact. -/
theorem dropWhile_eq_self_append {α} (p : α → Bool) {a : List α}
    (ha : a.dropWhile p = a) (hne : a ≠ []) (b : List α) :
    (a ++ b).dropWhile p = a ++ b := by
  cases a with
  | nil => exact absurd rfl hne
  | cons x xs =>
    by_cases hx : p x
    · exfalso
      rw [List.dropWhile_cons_of_pos hx] at ha
      have hl := congrArg List.length ha
      have hle := length_dropWhile_le' p xs
      simp only [List.length_cons] at hl
      omega
    · simp [List.dropWhile_cons_of_neg hx]

/-- Claim C10 counterexample: load a file whose vendor `1234 VendorX` has a
device line `ffff DeviceY`.  The fallback entry at `(0x1234, 0xFFFF)` is
indeed overwritten with the device name, but a fallback lookup for the
unknown device `0x0001` of that vendor still returns
`(some "VendorX", none)` — not the stored device name, contradicting the
claim. -/
theorem pci_sentinel_counterexample :
    dbGet (loadPciDbLines [("1234 VendorX".toList), ('\t' :: ("ffff DeviceY".toList))])
        (4660, 65535) = some (some ("VendorX".toList), some ("DeviceY".toList)) ∧
    pciLookup (loadPciDbLines [("1234 VendorX".toList), ('\t' :: ("ffff DeviceY".toList))])
        4660 1 = (some ("VendorX".toList), none) ∧
    pciLookup (loadPciDbLines [("1234 VendorX".toList), ('\t' :: ("ffff DeviceY".toList))])
        4660 1 ≠ (some ("VendorX".toList), some ("DeviceY".toList)) := by
  exact ⟨by decide, by decide, by decide⟩

/-- Claim C10, amended: processing a device line whose hex id is `ffff` under a
current vendor `v` does overwrite the entry at `(v, 0xFFFF)` with
`(vendor_name, some device_name)`; but a fallback lookup for an unknown
device always projects the device component away and returns
`(vendor_name, none)`; only an exact lookup with device id `0xFFFF`
observes the overwritten device name. -/
theorem pci_sentinel_inband (st : LoadState) (v : Nat) (name : Str)
    (hv : st.currentVendorId = some v)
    (hL : trimLeft name = name) (hR : trimRight name = name) (h0 : name ≠ []) :
    dbGet (procLine st ('\t' :: (("ffff ".toList) ++ name))).db (v, 65535)
        = some (st.currentVendorName, some name) ∧
    (∀ (db : PciDb) (v2 d : Nat) (q : PciName),
        dbGet db (v2, d) = none → dbGet db (v2, 65535) = some q →
        pciLookup db v2 d = (q.1, none)) ∧
    (∀ (db : PciDb) (v2 : Nat) (q : PciName),
        dbGet db (v2, 65535) = some q → pciLookup db v2 65535 = q) := by
  have hrevdrop : name.reverse.dropWhile isWs = name.reverse := by
    have h := congrArg List.reverse hR
    simpa [trimRight] using h
  have hrevne : name.reverse ≠ [] := by simpa using h0
  have htrim : trim ('\t' :: (("ffff ".toList) ++ name)) = ("ffff ".toList) ++ name := by
    show trimRight (trimLeft ('\t' :: (("ffff ".toList) ++ name))) = ("ffff ".toList) ++ name
    have h3 : trimLeft ('\t' :: (("ffff ".toList) ++ name)) = ("ffff ".toList) ++ name := rfl
    rw [h3]
    show ((("ffff ".toList) ++ name).reverse.dropWhile isWs).reverse = ("ffff ".toList) ++ name
    rw [List.reverse_append, dropWhile_eq_self_append isWs hrevdrop hrevne,
      List.reverse_append, List.reverse_reverse, List.reverse_reverse]
  have htn : trim name = name := by
    show trimRight (trimLeft name) = name
    rw [hL, hR]
  have hffff : fromStrRadix16 ("ffff".toList) = some 65535 := by decide
  have hsplit : splitn2 (("ffff ".toList) ++ name) = (("ffff".toList), some name) := rfl
  refine ⟨?_, ?_, ?_⟩
  · have hline : procLine st ('\t' :: (("ffff ".toList) ++ name))
        = procDevice st ('\t' :: (("ffff ".toList) ++ name)) := by
      unfold procLine
      rw [htrim]
      rfl
    rw [hline]
    unfold procDevice
    simp only [hv, htrim, hsplit, hffff, htn]
    exact dbGet_insert_self _ _ _
  · intro db v2 d q hnone hq
    simp [pciLookup, hnone, hq]
  · intro db v2 q hq
    simp [pciLookup, hq]

/-- Witness for C10's amended theorem at a concrete state and device name. -/
theorem pci_sentinel_inband_witness :
    dbGet (procLine
        { currentVendorId := some 4660, currentVendorName := some ("VendorX".toList), db := [] }
        ('\t' :: (("ffff ".toList) ++ ("DeviceY".toList)))).db (4660, 65535)
      = some (some ("VendorX".toList), some ("DeviceY".toList)) ∧
    pciLookup [((7, 65535), (some ("V7".toList), some ("D7".toList)))] 7 5
      = (some ("V7".toList), none) ∧
    pciLookup [((7, 65535), (some ("V7".toList), some ("D7".toList)))] 7 65535
      = (some ("V7".toList), some ("D7".toList)) := by
  have h := pci_sentinel_inband
      { currentVendorId := some 4660, currentVendorName := some ("VendorX".toList), db := [] }
      4660 ("DeviceY".toList) rfl (by decide) (by decide) (by decide)
  refine ⟨h.1, ?_, ?_⟩
  · exact h.2.1 [((7, 65535), (some ("V7".toList), some ("D7".toList)))] 7 5
      (some ("V7".toList), some ("D7".toList)) (by decide) (by decide)
  · exact h.2.2 [((7, 65535), (some ("V7".toList), some ("D7".toList)))] 7
      (some ("V7".toList), some ("D7".toList)) (by decide)

/-! ## C3: memory-device records with no usable manufacturer are excluded -/

theorem filterMap_length_le_filter {α β} (g : α → Option β) (p : α → Bool)
    (hgp : ∀ x, (g x).isSome = true → p x = true) (l : List α) :
    (l.filterMap g).length ≤ (l.filter p).length := by
  induction l with
  | nil => simp
  | cons a l ih =>
    cases hga : g a with
    | none =>
      rw [List.filterMap_cons_none hga]
      cases hpa : p a <;> simp [List.filter_cons, hpa] <;> omega
    | some b =>
      have hpa := hgp a (by simp [hga])
      rw [List.filterMap_cons_some hga]
      simp only [List.filter_cons, hpa, if_true, List.length_cons]
      omega

theorem filterMap_length_lt_filter {α β} (g : α → Option β) (p : α → Bool)
    (hgp : ∀ x, (g x).isSome = true → p x = true) {l : List α} {r : α}
    (hr : r ∈ l) (hp : p r = true) (hg : g r = none) :
    (l.filterMap g).length < (l.filter p).length := by
  induction l with
  | nil => cases hr
  | cons a l ih =>
    rcases List.mem_cons.mp hr with rfl | hmem
    · rw [List.filterMap_cons_none hg]
      simp only [List.filter_cons, hp, if_true, List.length_cons]
      exact Nat.lt_succ_of_le (filterMap_length_le_filter g p hgp l)
    · cases hga : g a with
      | none =>
        rw [List.filterMap_cons_none hga]
        cases hpa : p a <;> simp only [List.filter_cons, hpa, if_true, List.length_cons]
        · simp only [Bool.false_eq_true, if_false]
          exact ih hmem
        · exact Nat.lt_succ_of_lt (ih hmem)
      | some b =>
        have hpa := hgp a (by simp [hga])
        rw [List.filterMap_cons_some hga]
        simp only [List.filter_cons, hpa, if_true, List.length_cons]
        exact Nat.succ_lt_succ (ih hmem)

/-- A produced stick always carries a cleaned manufacturer. -/
theorem stickOfRec_isSome_type {r : SmbiosRec} (h : (stickOfRec r).isSome = true) :
    (r.structType == 17) = true := by
  by_cases ht : r.structType = 17
  · simp [ht]
  · simp [stickOfRec, ht] at h

/-- Claim C3: a memory-device record whose manufacturer cleans to nothing is
excluded entirely from the stick list — no stick with a `none`
manufacturer ever appears, and the stick count is strictly smaller than
the count of type-17 records (hence also than the total record count). -/
theorem ram_record_excluded (recs : List SmbiosRec) (r : SmbiosRec)
    (hr : r ∈ recs) (ht : r.structType = 17)
    (hm : cleanField r.manufacturerRaw = none) :
    (∀ s ∈ get_ram_details (some recs), s.manufacturer ≠ none) ∧
    (get_ram_details (some recs)).length
        < (recs.filter (fun x => x.structType == 17)).length ∧
    (get_ram_details (some recs)).length < recs.length := by
  have hg : stickOfRec r = none := by simp [stickOfRec, ht, hm]
  refine ⟨?_, ?_, ?_⟩
  · intro s hs
    simp only [get_ram_details, List.mem_filterMap] at hs
    obtain ⟨x, _, hx⟩ := hs
    by_cases htx : x.structType = 17
    · simp only [stickOfRec, htx, if_true] at hx
      cases hcx : cleanField x.manufacturerRaw with
      | none => rw [hcx] at hx; cases hx
      | some m =>
        rw [hcx] at hx
        cases hx
        simp
    · simp [stickOfRec, htx] at hx
  · exact filterMap_length_lt_filter stickOfRec (fun x => x.structType == 17)
      (fun x h => stickOfRec_isSome_type h) hr (by simp [ht]) hg
  · have h1 := filterMap_length_lt_filter stickOfRec (fun x => x.structType == 17)
      (fun x h => stickOfRec_isSome_type h) hr (by simp [ht]) hg
    have h2 := List.length_filter_le (fun x : SmbiosRec => x.structType == 17) recs
    simp only [get_ram_details]
    omega

/-- Witness for C3: two type-17 records, one with manufacturer
`"Unknown"`, one with a real manufacturer; the cleaned-away record is
dropped and the count strictly decreases. -/
theorem ram_record_excluded_witness :
    (∀ s ∈ get_ram_details (some
        [{ structType := 17, manufacturerRaw := ("Unknown".toList),
           partNumberRaw := [], serialNumberRaw := [], speedRaw := none },
         { structType := 17, manufacturerRaw := ("Samsung".toList),
           partNumberRaw := [], serialNumberRaw := [], speedRaw := none }]),
      s.manufacturer ≠ none) ∧
    (get_ram_details (some
        [{ structType := 17, manufacturerRaw := ("Unknown".toList),
           partNumberRaw := [], serialNumberRaw := [], speedRaw := none },
         { structType := 17, manufacturerRaw := ("Samsung".toList),
           partNumberRaw := [], serialNumberRaw := [], speedRaw := none }])).length < 2 := by
  have h := ram_record_excluded
      [{ structType := 17, manufacturerRaw := ("Unknown".toList),
         partNumberRaw := [], serialNumberRaw := [], speedRaw := none },
       { structType := 17, manufacturerRaw := ("Samsung".toList),
         partNumberRaw := [], serialNumberRaw := [], speedRaw := none }]
      { structType := 17, manufacturerRaw := ("Unknown".toList),
        partNumberRaw := [], serialNumberRaw := [], speedRaw := none }
      (by simp) rfl (by decide)
  exact ⟨h.1, h.2.2⟩

/-! ## C7: speed parsing keeps digits and never yields `some 0` -/

/-- Claim C7: the stick speed is computed by keeping exactly the decimal digits
of the raw rendering and parsing them as a `u16` (defaulting to 0); a zero
result — including parse failure — yields `none`, and the output is never
`some 0`. -/
theorem speed_parse_contract (raw : Str) :
    stickSpeed (some raw) ≠ some 0 ∧
    (speedParse raw = 0 → stickSpeed (some raw) = none) ∧
    (∀ n, stickSpeed (some raw) = some n → 0 < n ∧ n = speedParse raw) ∧
    speedParse raw = (parseU16 (raw.filter Char.isDigit)).getD 0 := by
  refine ⟨?_, ?_, ?_, rfl⟩
  · intro h
    simp only [stickSpeed, Option.map_some', Option.bind_eq_bind, Option.some_bind] at h
    by_cases hz : 0 < speedParse raw
    · rw [if_pos hz] at h
      have h2 := Option.some.inj h
      omega
    · simp [hz] at h
  · intro hz
    simp [stickSpeed, hz]
  · intro n hn
    simp only [stickSpeed, Option.map_some', Option.bind_eq_bind, Option.some_bind] at hn
    by_cases hz : 0 < speedParse raw
    · rw [if_pos hz] at hn
      have h2 := Option.some.inj hn
      exact ⟨h2 ▸ hz, h2.symm⟩
    · simp [hz] at hn

/-- Witness for C7: a unit-suffixed raw value parses to its digits, an
all-zero raw value maps to `none`. -/
theorem speed_parse_contract_witness :
    stickSpeed (some ("3200 MHz".toList)) ≠ some 0 ∧
    stickSpeed (some ("0 MHz".toList)) = none ∧
    (0 < 3200 ∧ 3200 = speedParse ("3200 MHz".toList)) := by
  refine ⟨(speed_parse_contract ("3200 MHz".toList)).1, ?_, ?_⟩
  · exact (speed_parse_contract ("0 MHz".toList)).2.1 (by decide)
  · exact (speed_parse_contract ("3200 MHz".toList)).2.2.1 3200 (by decide)

/-! ## C6: partition-to-parent disk name derivation -/

theorem head?_dropWhile_false {α} (p : α → Bool) (l : List α) (c : α)
    (h : (l.dropWhile p).head? = some c) : p c = false := by
  induction l with
  | nil => cases h
  | cons x xs ih =>
    by_cases hx : p x
    · rw [List.dropWhile_cons_of_pos hx] at h
      exact ih h
    · rw [List.dropWhile_cons_of_neg hx] at h
      have h2 := Option.some.inj h
      subst h2
      exact Bool.not_eq_true _ ▸ (by simpa using hx)

theorem dropWhile_ne_of_mem {α} [DecidableEq α] {c : α} {l : List α} (hc : c ∈ l) :
    ∃ t, l.dropWhile (fun x => x != c) = c :: t := by
  induction l with
  | nil => cases hc
  | cons x xs ih =>
    by_cases hx : x = c
    · subst hx
      exact ⟨xs, by rw [List.dropWhile_cons_of_neg (by simp)]⟩
    · rcases List.mem_cons.mp hc with rfl | hmem
      · exact absurd rfl hx
      · obtain ⟨t, ht⟩ := ih hmem
        exact ⟨t, by rw [List.dropWhile_cons_of_pos (by simp [hx]), ht]⟩

/-- Decomposition of the trailing-digit strip: the name splits into the
kept parent and an all-digit suffix. -/
theorem dropTrailingNumeric_decomp (l : Str) :
    l = dropTrailingNumeric l ++ (l.reverse.takeWhile Char.isDigit).reverse := by
  conv_lhs => rw [← List.reverse_reverse l,
    ← List.takeWhile_append_dropWhile Char.isDigit l.reverse]
  rw [List.reverse_append]
  rfl

/-- Claim C6: parent-disk derivation — an `sd`/`hd` name has its trailing digits
stripped (the parent ends in a non-digit, the removed suffix is all
digits); an `nvme` name containing `p` is truncated at the last `p` (the
removed tail holds no further `p`); any other name is unchanged; and the
interface is `NVMe` for an nvme parent, `SATA/SAS` for an sd parent, and
`none` otherwise — as also returned by `get_disk_metadata`. -/
theorem disk_parent_derivation (name : Str) :
    ((startsWith ("sd".toList) name || startsWith ("hd".toList) name) = true →
      (∃ suffix : Str, name = parentDiskName name ++ suffix ∧
        (∀ c ∈ suffix, c.isDigit = true)) ∧
      (∀ c, (parentDiskName name).getLast? = some c → c.isDigit = false)) ∧
    ((startsWith ("sd".toList) name || startsWith ("hd".toList) name) = false →
      (containsChar 'p' name && startsWith ("nvme".toList) name) = true →
      ∃ tl : Str, name = parentDiskName name ++ 'p' :: tl ∧
        containsChar 'p' tl = false) ∧
    ((startsWith ("sd".toList) name || startsWith ("hd".toList) name) = false →
      (containsChar 'p' name && startsWith ("nvme".toList) name) = false →
      parentDiskName name = name) ∧
    (startsWith ("nvme".toList) (parentDiskName name) = true →
      diskInterfaceOf (parentDiskName name) = some ("NVMe".toList)) ∧
    (startsWith ("nvme".toList) (parentDiskName name) = false →
      startsWith ("sd".toList) (parentDiskName name) = true →
      diskInterfaceOf (parentDiskName name) = some ("SATA/SAS".toList)) ∧
    (startsWith ("nvme".toList) (parentDiskName name) = false →
      startsWith ("sd".toList) (parentDiskName name) = false →
      diskInterfaceOf (parentDiskName name) = none) ∧
    (∀ attrs : SysfsAttrs,
      (get_disk_metadata (some attrs) name).2.2.2 = diskInterfaceOf (parentDiskName name)) := by
  refine ⟨?_, ?_, ?_, ?_, ?_, ?_, ?_⟩
  · intro h
    have hpn : parentDiskName name = dropTrailingNumeric name := by
      unfold parentDiskName
      rw [if_pos h]
    constructor
    · refine ⟨(name.reverse.takeWhile Char.isDigit).reverse, ?_, ?_⟩
      · rw [hpn]
        exact dropTrailingNumeric_decomp name
      · intro c hc
        exact List.mem_takeWhile_imp (List.mem_reverse.mp hc)
    · intro c hc
      rw [hpn] at hc
      unfold dropTrailingNumeric at hc
      rw [List.getLast?_reverse] at hc
      exact head?_dropWhile_false _ _ _ hc
  · intro h hn
    have hcp : containsChar 'p' name = true :=
      ((Bool.and_eq_true _ _).mp hn).1
    have hpn : parentDiskName name = truncAtLast 'p' name := by
      unfold parentDiskName
      rw [if_neg (by simp only [h]; simp), if_pos hn]
    have hmem : 'p' ∈ name.reverse := by
      rw [List.mem_reverse]
      have := List.any_eq_true.mp hcp
      obtain ⟨x, hx, hxe⟩ := this
      have hxp : x = 'p' := by simpa using hxe
      exact hxp ▸ hx
    obtain ⟨t, ht⟩ := dropWhile_ne_of_mem hmem
    have htrunc : truncAtLast 'p' name = t.reverse := by
      unfold truncAtLast
      rw [ht]
    refine ⟨(name.reverse.takeWhile (fun x => x != 'p')).reverse, ?_, ?_⟩
    · rw [hpn, htrunc]
      conv_lhs => rw [← List.reverse_reverse name,
        ← List.takeWhile_append_dropWhile (fun x => x != 'p') name.reverse, ht]
      rw [List.reverse_append, List.reverse_cons, List.append_assoc,
        List.singleton_append]
    · simp only [containsChar]
      rw [List.any_eq_false]
      intro x hx
      have hxt := List.mem_takeWhile_imp (List.mem_reverse.mp hx)
      simp only [bne_iff_ne, ne_eq] at hxt
      simpa using hxt
  · intro h hn
    unfold parentDiskName
    rw [if_neg (by simp only [h]; simp), if_neg (by simp only [hn]; simp)]
  · intro h
    unfold diskInterfaceOf
    rw [if_pos h]
  · intro h1 h2
    unfold diskInterfaceOf
    rw [if_neg (by simp only [h1]; simp), if_pos h2]
  · intro h1 h2
    unfold diskInterfaceOf
    rw [if_neg (by simp only [h1]; simp), if_neg (by simp only [h2]; simp)]
  · intro attrs
    rfl

/-- Witness for C6 at the spec's three examples: `sda1 → sda`,
`nvme0n1p2 → nvme0n1`, `nvme0n1` unchanged, with their interfaces. -/
theorem disk_parent_derivation_witness :
    ((∃ suffix : Str, ("sda1".toList) = parentDiskName ("sda1".toList) ++ suffix ∧
        (∀ c ∈ suffix, c.isDigit = true)) ∧
      (∀ c, (parentDiskName ("sda1".toList)).getLast? = some c → c.isDigit = false)) ∧
    (∃ tl : Str, ("nvme0n1p2".toList) = parentDiskName ("nvme0n1p2".toList) ++ 'p' :: tl ∧
      containsChar 'p' tl = false) ∧
    parentDiskName ("nvme0n1".toList) = ("nvme0n1".toList) ∧
    diskInterfaceOf (parentDiskName ("nvme0n1p2".toList)) = some ("NVMe".toList) ∧
    diskInterfaceOf (parentDiskName ("sda1".toList)) = some ("SATA/SAS".toList) ∧
    diskInterfaceOf (parentDiskName ("mmcblk0".toList)) = none := by
  refine ⟨(disk_parent_derivation ("sda1".toList)).1 (by decide),
    (disk_parent_derivation ("nvme0n1p2".toList)).2.1 (by decide) (by decide),
    (disk_parent_derivation ("nvme0n1".toList)).2.2.1 (by decide) (by decide),
    (disk_parent_derivation ("nvme0n1p2".toList)).2.2.2.1 (by decide),
    (disk_parent_derivation ("sda1".toList)).2.2.2.2.1 (by decide) (by decide),
    (disk_parent_derivation ("mmcblk0".toList)).2.2.2.2.2.1 (by decide) (by decide)⟩

/-! ## C8: battery probe defaults and capacity range -/

theorem parseUnsigned_lt {bound : Nat} {s : Str} {n : Nat}
    (h : parseUnsigned bound s = some n) : n < bound := by
  simp only [parseUnsigned] at h
  split at h
  · cases h
  · rcases Option.bind_eq_some.mp h with ⟨m, _, hf⟩
    split at hf
    · cases hf
      assumption
    · cases hf

/-- Claim C8 counterexample: a battery entry whose capacity file holds `250`
yields a record with capacity 250 — the parsed `u8` is not restricted to
the 0-100 percentage range the claim states. -/
theorem battery_capacity_counterexample :
    (get_battery_info (some [{ name := ("BAT0".toList), statusFile := none,
                               capacityFile := some ("250".toList) }])).map
        (fun b => b.capacity) = [250] ∧
    ¬ (250 ≤ 100) := ⟨by decide, by decide⟩

/-- Claim C8, amended: every power-supply entry whose name starts with `BAT`
produces a record whose status defaults to `"Unknown"` on read failure and
whose capacity is the parsed 8-bit integer of the capacity file — in the
`u8` range 0-255, not clamped to 100 — defaulting to 0 on read or parse
failure. -/
theorem battery_probe_contract (entries : List PowerSupplyEntry) (e : PowerSupplyEntry)
    (he : e ∈ entries) (hb : startsWith ("BAT".toList) e.name = true) :
    ∃ b ∈ get_battery_info (some entries),
      b.name = e.name ∧
      b.status = (e.statusFile.map trim).getD ("Unknown".toList) ∧
      b.capacity = (e.capacityFile.map (fun s => (parseU8 (trim s)).getD 0)).getD 0 ∧
      b.capacity ≤ 255 ∧
      (e.statusFile = none → b.status = ("Unknown".toList)) ∧
      (∀ s, e.capacityFile = some s → parseU8 (trim s) = none → b.capacity = 0) := by
  have hbe : batteryOfEntry e = some
      { name := e.name
        status := (e.statusFile.map trim).getD ("Unknown".toList)
        capacity := (e.capacityFile.map (fun s => (parseU8 (trim s)).getD 0)).getD 0 } := by
    simp only [batteryOfEntry]
    rw [if_pos hb]
  refine ⟨{ name := e.name
            status := (e.statusFile.map trim).getD ("Unknown".toList)
            capacity := (e.capacityFile.map (fun s => (parseU8 (trim s)).getD 0)).getD 0 },
    ?_, rfl, rfl, rfl, ?_, ?_, ?_⟩
  · simp only [get_battery_info]
    exact List.mem_filterMap.mpr ⟨e, he, hbe⟩
  · cases hcf : e.capacityFile with
    | none => simp
    | some s =>
      simp only [hcf, Option.map_some', Option.getD_some]
      cases hp : parseU8 (trim s) with
      | none => simp
      | some m =>
        have := parseUnsigned_lt hp
        simp only [Option.getD_some]
        omega
  · intro hsf
    simp [hsf]
  · intro s hs hp
    simp [hs, hp]

/-- Witness for C8's amended theorem at a concrete unreadable-status,
capacity-250 entry. -/
theorem battery_probe_contract_witness :
    ∃ b ∈ get_battery_info (some [{ name := ("BAT0".toList), statusFile := none,
                                    capacityFile := some ("250".toList) }]),
      b.status = ("Unknown".toList) ∧ b.capacity ≤ 255 := by
  obtain ⟨b, hmem, _, _, _, hle, hstatd, _⟩ := battery_probe_contract
      [{ name := ("BAT0".toList), statusFile := none, capacityFile := some ("250".toList) }]
      { name := ("BAT0".toList), statusFile := none, capacityFile := some ("250".toList) }
      (by simp) (by decide)
  exact ⟨b, hmem, hstatd rfl, hle⟩

/-! ## C4: live-session refresh overwrites only the sampled fields -/

/-- Index-wise characterisation of the cpu refresh loop: entry `i` is the
old entry with usage/frequency overwritten when the sample has an `i`-th
element, and unchanged otherwise. -/
theorem updateCpus_getElem? (cs : List CpuInfo) (ss : List (Nat × Nat)) (i : Nat) :
    (updateCpus cs ss)[i]? = (cs[i]?).map (fun c =>
      match ss[i]? with
      | some p => { c with usage := p.1, frequency := p.2 }
      | none => c) := by
  induction cs generalizing ss i with
  | nil => cases ss <;> simp [updateCpus]
  | cons c cs ih =>
    cases ss with
    | nil =>
      simp only [updateCpus]
      cases hi : (c :: cs)[i]? <;> simp [hi]
    | cons s ss2 =>
      cases i with
      | zero => simp [updateCpus]
      | succ j => simpa [updateCpus] using ih ss2 j

/-- Claim C4: one `update_metrics` pass overwrites in place only per-core usage
and frequency (matched by index), RAM used/free/swap-used, uptime, and
per-interface counters (matched by name, absent interfaces unchanged);
every other field of the working copy — identity fields, storage, USB,
PCI, motherboard, battery, memory sticks, RAM/swap totals, CPU identity
and cache fields, interface names and MAC addresses — is unchanged. -/
theorem update_metrics_frame (r : HardwareReport) (s : RefreshSample) :
    (update_metrics r s).usb = r.usb ∧
    (update_metrics r s).pci = r.pci ∧
    (update_metrics r s).motherboard = r.motherboard ∧
    (update_metrics r s).battery = r.battery ∧
    (update_metrics r s).storage = r.storage ∧
    (update_metrics r s).ram.sticks = r.ram.sticks ∧
    (update_metrics r s).ram.total = r.ram.total ∧
    (update_metrics r s).ram.swap_total = r.ram.swap_total ∧
    (update_metrics r s).os_name = r.os_name ∧
    (update_metrics r s).os_version = r.os_version ∧
    (update_metrics r s).kernel_version = r.kernel_version ∧
    (update_metrics r s).hostname = r.hostname ∧
    (update_metrics r s).ram.used = s.usedMemory ∧
    (update_metrics r s).ram.free = s.freeMemory ∧
    (update_metrics r s).ram.swap_used = s.usedSwap ∧
    (update_metrics r s).uptime = s.uptime ∧
    (∀ i : Nat, (update_metrics r s).cpu[i]? = (r.cpu[i]?).map (fun c =>
      match s.cpus[i]? with
      | some p => { c with usage := p.1, frequency := p.2 }
      | none => c)) ∧
    (update_metrics r s).network = r.network.map (updateNet s.networks) ∧
    (∀ n : NetworkInfo,
      (updateNet s.networks n).name = n.name ∧
      (updateNet s.networks n).mac_address = n.mac_address ∧
      (s.networks.find? (fun p => p.1 == n.name) = none → updateNet s.networks n = n) ∧
      (∀ p, s.networks.find? (fun q => q.1 == n.name) = some p →
        (updateNet s.networks n).received = p.2.1 ∧
        (updateNet s.networks n).transmitted = p.2.2)) := by
  refine ⟨rfl, rfl, rfl, rfl, rfl, rfl, rfl, rfl, rfl, rfl, rfl, rfl, rfl, rfl, rfl, rfl,
    ?_, rfl, ?_⟩
  · intro i
    exact updateCpus_getElem? r.cpu s.cpus i
  · intro n
    refine ⟨?_, ?_, ?_, ?_⟩
    · unfold updateNet
      cases h : s.networks.find? (fun p => p.1 == n.name) <;> simp
    · unfold updateNet
      cases h : s.networks.find? (fun p => p.1 == n.name) <;> simp
    · intro h
      unfold updateNet
      rw [h]
    · intro p hp
      unfold updateNet
      rw [hp]
      exact ⟨rfl, rfl⟩

/-- Witness for C4 on a concrete report and sample: the cpu clause at an
in-range index, the absent-interface clause, and the matched-interface
clause. -/
theorem update_metrics_frame_witness :
    (update_metrics
        { os_name := [], os_version := [], kernel_version := [], hostname := [], uptime := 0,
          cpu := [], ram := { total := 9, used := 0, free := 0, swap_total := 8, swap_used := 0,
                              sticks := [] },
          storage := [], network := [], usb := [], pci := [], motherboard := none, battery := [] }
        { cpus := [], usedMemory := 1, freeMemory := 2, usedSwap := 3, uptime := 4,
          networks := [] }).ram.used = 1 ∧
    updateNet ([] : List (Str × Nat × Nat))
        { name := ("eth0".toList), received := 5, transmitted := 6,
          mac_address := ("aa:bb".toList) }
      = { name := ("eth0".toList), received := 5, transmitted := 6,
          mac_address := ("aa:bb".toList) } ∧
    (updateNet [(("eth0".toList), 7, 8)]
        { name := ("eth0".toList), received := 5, transmitted := 6,
          mac_address := ("aa:bb".toList) }).received = 7 := by
  have h := update_metrics_frame
      { os_name := [], os_version := [], kernel_version := [], hostname := [], uptime := 0,
        cpu := [], ram := { total := 9, used := 0, free := 0, swap_total := 8, swap_used := 0,
                            sticks := [] },
        storage := [], network := [], usb := [], pci := [], motherboard := none, battery := [] }
      { cpus := [], usedMemory := 1, freeMemory := 2, usedSwap := 3, uptime := 4,
        networks := [] }
  have h2 := update_metrics_frame
      { os_name := [], os_version := [], kernel_version := [], hostname := [], uptime := 0,
        cpu := [], ram := { total := 9, used := 0, free := 0, swap_total := 8, swap_used := 0,
                            sticks := [] },
        storage := [], network := [], usb := [], pci := [], motherboard := none, battery := [] }
      { cpus := [], usedMemory := 1, freeMemory := 2, usedSwap := 3, uptime := 4,
        networks := [(("eth0".toList), 7, 8)] }
  obtain ⟨-, -, -, -, -, -, -, -, -, -, -, -, hused, -, -, -, -, -, hN⟩ := h
  obtain ⟨-, -, -, -, -, -, -, -, -, -, -, -, -, -, -, -, -, -, hN2⟩ := h2
  refine ⟨hused, ?_, ?_⟩
  · exact (hN { name := ("eth0".toList), received := 5, transmitted := 6,
                mac_address := ("aa:bb".toList) }).2.2.1 (by decide)
  · exact ((hN2 { name := ("eth0".toList), received := 5, transmitted := 6,
                  mac_address := ("aa:bb".toList) }).2.2.2
      (("eth0".toList), 7, 8) (by decide)).1

/-! ## C1: report assembly is total and degrades to empty collections -/

/-- Claim C1: `get_hardware_report` is a total function of its environment (it
returns a `HardwareReport` for every environment by construction); in an
environment with zero disks, zero USB devices and no firmware table access
(no SMBIOS table, no firmware-description tree) the report still carries
empty storage/USB/memory-stick collections and a `none` motherboard. -/
theorem report_assembly_degraded (env : Env)
    (hd : env.disks = []) (hu : env.usb = some [])
    (hs : env.smbios = none) (hm : env.dmi = none) :
    (get_hardware_report env).storage = [] ∧
    (get_hardware_report env).usb = [] ∧
    (get_hardware_report env).ram.sticks = [] ∧
    (get_hardware_report env).motherboard = none := by
  refine ⟨?_, ?_, ?_, ?_⟩
  · simp [get_hardware_report, hd]
  · simp [get_hardware_report, hu, get_usb_devices]
  · simp [get_hardware_report, hs, get_ram_details]
  · simp [get_hardware_report, hm, get_motherboard_info]

/-- Witness for C1 on a fully concrete synthetic environment. -/
theorem report_assembly_degraded_witness :
    (get_hardware_report
        { cpus := [{ brand := ("cpu0".toList), vendorIdStr := ("GenuineIntel".toList),
                     frequency := 2400, usage := 12 }],
          cpuVendorInfo := some ("GenuineIntel".toList),
          physicalCoreCount := some 4,
          cacheParams := none,
          mem := { total := 100, used := 40, free := 60, swapTotal := 10, swapUsed := 1 },
          smbios := none,
          disks := [],
          diskSysfs := none,
          networks := [(("eth0".toList),
                        { received := 1, transmitted := 2, macAddress := ("aa".toList) })],
          usb := some [],
          pciFiles := [none, none],
          pciFunctions := [],
          dmi := none,
          powerSupply := none,
          osName := some ("linux".toList), osVersion := some ("6.1".toList),
          kernelVersion := some ("6.1.0".toList), hostName := some ("host".toList),
          uptime := 77 }).storage = [] ∧
    (get_hardware_report
        { cpus := [{ brand := ("cpu0".toList), vendorIdStr := ("GenuineIntel".toList),
                     frequency := 2400, usage := 12 }],
          cpuVendorInfo := some ("GenuineIntel".toList),
          physicalCoreCount := some 4,
          cacheParams := none,
          mem := { total := 100, used := 40, free := 60, swapTotal := 10, swapUsed := 1 },
          smbios := none,
          disks := [],
          diskSysfs := none,
          networks := [(("eth0".toList),
                        { received := 1, transmitted := 2, macAddress := ("aa".toList) })],
          usb := some [],
          pciFiles := [none, none],
          pciFunctions := [],
          dmi := none,
          powerSupply := none,
          osName := some ("linux".toList), osVersion := some ("6.1".toList),
          kernelVersion := some ("6.1.0".toList), hostName := some ("host".toList),
          uptime := 77 }).usb = [] ∧
    (get_hardware_report
        { cpus := [{ brand := ("cpu0".toList), vendorIdStr := ("GenuineIntel".toList),
                     frequency := 2400, usage := 12 }],
          cpuVendorInfo := some ("GenuineIntel".toList),
          physicalCoreCount := some 4,
          cacheParams := none,
          mem := { total := 100, used := 40, free := 60, swapTotal := 10, swapUsed := 1 },
          smbios := none,
          disks := [],
          diskSysfs := none,
          networks := [(("eth0".toList),
                        { received := 1, transmitted := 2, macAddress := ("aa".toList) })],
          usb := some [],
          pciFiles := [none, none],
          pciFunctions := [],
          dmi := none,
          powerSupply := none,
          osName := some ("linux".toList), osVersion := some ("6.1".toList),
          kernelVersion := some ("6.1.0".toList), hostName := some ("host".toList),
          uptime := 77 }).ram.sticks = [] ∧
    (get_hardware_report
        { cpus := [{ brand := ("cpu0".toList), vendorIdStr := ("GenuineIntel".toList),
                     frequency := 2400, usage := 12 }],
          cpuVendorInfo := some ("GenuineIntel".toList),
          physicalCoreCount := some 4,
          cacheParams := none,
          mem := { total := 100, used := 40, free := 60, swapTotal := 10, swapUsed := 1 },
          smbios := none,
          disks := [],
          diskSysfs := none,
          networks := [(("eth0".toList),
                        { received := 1, transmitted := 2, macAddress := ("aa".toList) })],
          usb := some [],
          pciFiles := [none, none],
          pciFunctions := [],
          dmi := none,
          powerSupply := none,
          osName := some ("linux".toList), osVersion := some ("6.1".toList),
          kernelVersion := some ("6.1.0".toList), hostName := some ("host".toList),
          uptime := 77 }).motherboard = none := by
  exact report_assembly_degraded _ rfl rfl rfl rfl

end HwChecker
